import Mathlib

set_option linter.unusedVariables false

/-!
Verification of the four-stage LLM pipeline scripts.

The development shallowly embeds the two Python scripts:
* AutogenTester models src/autogen/scenario_tester.py: the ScenarioWorkflow
  class, its four phases, the summary/report writer and the CLI entry point.
* CrewaiDemo models src/crewai/crewai_demo.py: the four tool functions and
  the control flow of its main function (the third-party crew orchestration
  call is treated as an external collaborator passed in as a value).

The language-model backend is modelled as a function from the call index
(the global time at which the call is issued) and the message pair
(system prompt, user message) to either a returned text or an error; an
exception raised by the real client maps to the error case.  The call index
makes it possible to speak about backends whose answers vary between calls,
and determinism is then the hypothesis that the answer does not depend on
the index.  Console printing is not modelled; file writes are recorded as
(filename, content) events.
-/

namespace AutogenTester

/-- The four scenario identifiers accepted by the script
(the keys of the self.scenarios dictionary). -/
inductive Scenario
  | conference
  | marketing
  | research_paper
  | software
deriving DecidableEq, Repr

/-- The scenario identifier string, as used for dictionary keys and the
CLI argument. -/
def scenario_id : Scenario → String
  | .conference => "conference"
  | .marketing => "marketing"
  | .research_paper => "research_paper"
  | .software => "software"

/-- scenarios[s]["title"] from ScenarioWorkflow.__init__. -/
def scenario_title : Scenario → String
  | .conference => "3-Day AI/ML Conference Planning"
  | .marketing => "Product Marketing Strategy"
  | .research_paper => "Research Paper Outline"
  | .software => "Software Architecture Planning"

/-- The system prompt of phase_research (prompts[self.scenario_type]). -/
def research_prompt : Scenario → String
  | .conference => "You are a conference research specialist. Research successful AI/ML conferences \nand provide insights on: keynote speakers, workshop formats, networking events, and sponsorship models.\nAnalyze 3 similar conferences. Be concise - 150 words."
  | .marketing => "You are a market research analyst. Research the B2B SaaS market and provide \ninsights on: target personas, competitor strategies, content marketing trends, and channel effectiveness.\nFocus on data-driven insights. Be concise - 150 words."
  | .research_paper => "You are a literature review specialist. Research existing papers on AI ethics \nin healthcare and provide: key themes, major contributors, methodologies used, and recent developments.\nIdentify 3-4 seminal papers. Be concise - 150 words."
  | .software => "You are a tech stack researcher. Research modern e-commerce architectures and \nprovide insights on: microservices patterns, database choices, API designs, and scalability solutions.\nCompare 3 architecture approaches. Be concise - 150 words."

/-- The user message of phase_research (user_messages[self.scenario_type]). -/
def research_user_message : Scenario → String
  | .conference => "Research successful AI/ML conferences and identify best practices."
  | .marketing => "Research the B2B SaaS market and identify effective marketing strategies."
  | .research_paper => "Research existing literature on AI ethics in healthcare."
  | .software => "Research modern e-commerce platform architectures and technologies."

/-- The system prompt of phase_analysis. -/
def analysis_prompt : Scenario → String
  | .conference => "You are an attendee and speaker analyst. Based on the research, identify:\ntarget attendee profiles, speaker selection criteria, and engagement opportunities.\nProvide 3 key insights. Be concise - 150 words."
  | .marketing => "You are a customer insights specialist. Based on the research, identify:\ncustomer pain points, buying journey stages, and value proposition opportunities.\nProvide 3 actionable insights. Be concise - 150 words."
  | .research_paper => "You are a research gap analyst. Based on the literature review, identify:\nunexplored areas, methodological improvements, and potential contributions.\nHighlight 3 research gaps. Be concise - 150 words."
  | .software => "You are a requirements analyst. Based on the research, identify:\ncritical system requirements, performance needs, and integration challenges.\nList 3 key requirements. Be concise - 150 words."

/-- The system prompt of phase_blueprint. -/
def blueprint_prompt : Scenario → String
  | .conference => "You are an agenda designer. Create a detailed 3-day conference agenda including:\nDay-by-day schedule with timings, keynote topics, workshop themes, and networking events.\nBe specific and practical - 150 words."
  | .marketing => "You are a marketing strategist. Design a comprehensive strategy including:\nCampaign objectives, key messages, channel mix, content calendar outline, and success metrics.\nBe specific and actionable - 150 words."
  | .research_paper => "You are a paper structure designer. Create a detailed outline including:\nSection titles, key arguments per section, methodology approach, and expected contributions.\nFollow academic standards - 150 words."
  | .software => "You are a system architect. Design the architecture including:\nSystem components, data flow, API structure, deployment strategy, and scalability approach.\nInclude specific technologies - 150 words."

/-- The system prompt of phase_review. -/
def review_prompt : Scenario → String
  | .conference => "You are a conference director. Review the agenda and provide:\nRisk mitigation strategies, budget considerations, and success metrics.\nGive 3 strategic recommendations - 150 words."
  | .marketing => "You are a CMO reviewer. Review the strategy and provide:\nBudget allocation advice, risk factors, and optimization opportunities.\nGive 3 strategic improvements - 150 words."
  | .research_paper => "You are an academic editor. Review the outline and provide:\nStrengths, potential weaknesses, and publication strategy recommendations.\nGive 3 improvement suggestions - 150 words."
  | .software => "You are a CTO reviewer. Review the architecture and provide:\nSecurity considerations, cost optimization, and deployment recommendations.\nGive 3 technical improvements - 150 words."

/-- self.outputs: an insertion-ordered mapping from stage name to stage
output, modelled as an append-only association list. -/
abbrev Ctx := List (String × String)

/-- Dictionary access outputs[key] (first matching entry; keys are unique
during a run because each phase stores its own name exactly once). -/
def ctx_get : Ctx → String → Option String
  | [], _ => none
  | (k, v) :: rest, key => if k = key then some v else ctx_get rest key

/-- The stage names, in execution order. -/
def stage_names : List String := ["research", "analysis", "blueprint", "review"]

/-- The language-model backend (self.client.chat.completions.create):
from the index of the call (a global time stamp) and the message pair
(system prompt, user message) to the returned text, or to an error when
the call raises. -/
abbrev Backend := Nat → String → String → Except String String

/-- The observable state of one workflow: the accumulated stage outputs
(self.outputs), the chat-completion calls issued so far as
(system prompt, user message) pairs, and the files written as
(filename, content) pairs. -/
structure St where
  outputs : Ctx
  calls : List (String × String)
  written : List (String × String)
deriving DecidableEq, Repr

/-- self.outputs = \x7b\x7d together with an empty observation log. -/
def init_st : St := ⟨[], [], []⟩

/-- The user message constructed for the stage of (0-based) index k, as
built by the f-strings of the four phase methods; none models the KeyError
raised when a referenced earlier output is absent. -/
def build_user_message (s : Scenario) (k : Nat) (ctx : Ctx) : Option String :=
  match k with
  | 0 => some (research_user_message s)
  | 1 => (ctx_get ctx "research").map
      (fun r => "Research findings:\n" ++ r ++ "\n\nProvide your analysis.")
  | 2 => (ctx_get ctx "analysis").map
      (fun a => "Analysis:\n" ++ a ++ "\n\nCreate your design/blueprint.")
  | 3 => (ctx_get ctx "blueprint").map
      (fun bp => "Blueprint:\n" ++ bp ++ "\n\nProvide your review.")
  | _ => none

/-- The common body of the four phase methods: build the user message
(a missing key raises before any call is made), issue exactly one backend
call, and on success store the returned text under the stage name.
n0 is the index of the first call of the run, so the call issued here has
index n0 + (number of calls already made).  The second component is the
pending exception: none on success, some e when the phase raised. -/
def call_phase (b : Backend) (n0 : Nat) (stage sys : String) (um : Option String)
    (st : St) : St × Option String :=
  match um with
  | none => (st, some ("KeyError: missing output for stage " ++ stage))
  | some m =>
    let st1 : St := { st with calls := st.calls ++ [(sys, m)] }
    match b (n0 + st.calls.length) sys m with
    | .ok out => ({ st1 with outputs := st1.outputs ++ [(stage, out)] }, none)
    | .error e => (st1, some e)

/-- Phase 1: Research (ScenarioWorkflow.phase_research). -/
def phase_research (b : Backend) (n0 : Nat) (s : Scenario) (st : St) : St × Option String :=
  call_phase b n0 "research" (research_prompt s) (build_user_message s 0 st.outputs) st

/-- Phase 2: Analysis (ScenarioWorkflow.phase_analysis). -/
def phase_analysis (b : Backend) (n0 : Nat) (s : Scenario) (st : St) : St × Option String :=
  call_phase b n0 "analysis" (analysis_prompt s) (build_user_message s 1 st.outputs) st

/-- Phase 3: Blueprint/Design (ScenarioWorkflow.phase_blueprint). -/
def phase_blueprint (b : Backend) (n0 : Nat) (s : Scenario) (st : St) : St × Option String :=
  call_phase b n0 "blueprint" (blueprint_prompt s) (build_user_message s 2 st.outputs) st

/-- Phase 4: Review (ScenarioWorkflow.phase_review). -/
def phase_review (b : Backend) (n0 : Nat) (s : Scenario) (st : St) : St × Option String :=
  call_phase b n0 "review" (review_prompt s) (build_user_message s 3 st.outputs) st

/-- The line of 80 equal signs. -/
def bar80 : String := String.mk (List.replicate 80 '=')

/-- The line of 80 dashes. -/
def dash80 : String := String.mk (List.replicate 80 '-')

/-- The report sections written by the for-loop of print_summary, one per
stage name in the given list; none models the KeyError raised by
self.outputs[phase] when a stage output is absent. -/
def report_sections (outputs : Ctx) : List String → Option String
  | [] => some ""
  | phase :: rest =>
    match ctx_get outputs phase with
    | none => none
    | some out =>
      match report_sections outputs rest with
      | none => none
      | some tail =>
        some ("\n" ++ dash80 ++ "\n" ++ phase.toUpper ++ " PHASE\n" ++ dash80 ++ "\n"
          ++ out ++ "\n" ++ tail)

/-- ScenarioWorkflow.print_summary: writes the report file
scenario_<type>_<timestamp>.txt whose content is the header (title banner,
generation timestamp, model name) followed by one section per stage in
execution order.  ts is the filename timestamp (YYYYMMDD_HHMMSS) and
ts2 the pretty timestamp of the Generated line, both taken at run time. -/
def print_summary (s : Scenario) (model ts ts2 : String) (st : St) : St × Option String :=
  let output_file := "scenario_" ++ scenario_id s ++ "_" ++ ts ++ ".txt"
  match report_sections st.outputs stage_names with
  | none => (st, some "KeyError: missing phase output")
  | some sections =>
    let content := bar80 ++ "\n" ++ "AUTOGEN SCENARIO: " ++ scenario_title s ++ "\n"
      ++ bar80 ++ "\n" ++ "Generated: " ++ ts2 ++ "\n" ++ "Model: " ++ model ++ "\n\n"
      ++ sections
    ({ st with written := st.written ++ [(output_file, content)] }, none)

/-- ScenarioWorkflow.run: executes the four phases in order starting from
the empty outputs dictionary, then print_summary; the first raised
exception aborts the remaining steps and is returned as some e. -/
def run (b : Backend) (n0 : Nat) (s : Scenario) (model ts ts2 : String) : St × Option String :=
  match phase_research b n0 s init_st with
  | (st, some e) => (st, some e)
  | (st, none) =>
    match phase_analysis b n0 s st with
    | (st, some e) => (st, some e)
    | (st, none) =>
      match phase_blueprint b n0 s st with
      | (st, some e) => (st, some e)
      | (st, none) =>
        match phase_review b n0 s st with
        | (st, some e) => (st, some e)
        | (st, none) => print_summary s model ts ts2 st

/-- The valid_scenarios list of main. -/
def valid_scenarios : List String := ["conference", "marketing", "research_paper", "software"]

/-- Resolution of the scenario argument string to a scenario; none exactly
when the argument is not in valid_scenarios. -/
def parse_scenario (arg : String) : Option Scenario :=
  if arg = "conference" then some .conference
  else if arg = "marketing" then some .marketing
  else if arg = "research_paper" then some .research_paper
  else if arg = "software" then some .software
  else none

/-- main of scenario_tester.py: rejects an unknown scenario with exit
status 1 before any workflow exists; then ScenarioWorkflow.__init__
validates the configuration and exits with status 1 on failure (SystemExit
is not an Exception, so the try block does not catch it); otherwise the
workflow runs and any exception it raises is caught, printed with a
traceback, and main returns normally, so the process exits with status 0.
The result is the exit status together with the observable state. -/
def main_autogen (arg : String) (cfgValid : Bool) (b : Backend) (n0 : Nat)
    (model ts ts2 : String) : Nat × St :=
  match parse_scenario arg with
  | none => (1, init_st)
  | some s =>
    if cfgValid then
      let r := run b n0 s model ts ts2
      (0, r.1)
    else (1, init_st)

/-- One stage section of the report file, as the spec describes it:
the stage-name header followed by the raw stage output. -/
def phase_block (phase out : String) : String :=
  "\n" ++ dash80 ++ "\n" ++ phase.toUpper ++ " PHASE\n" ++ dash80 ++ "\n" ++ out ++ "\n"

/-- The body of a successful report: one section per stage, in execution
order research, analysis, blueprint, review. -/
def report_body (o1 o2 o3 o4 : String) : String :=
  phase_block "research" o1 ++ (phase_block "analysis" o2
    ++ (phase_block "blueprint" o3 ++ (phase_block "review" o4 ++ "")))

/-- The report header: title banner, generation timestamp, model name. -/
def report_header (s : Scenario) (model ts2 : String) : String :=
  bar80 ++ "\n" ++ "AUTOGEN SCENARIO: " ++ scenario_title s ++ "\n"
    ++ bar80 ++ "\n" ++ "Generated: " ++ ts2 ++ "\n" ++ "Model: " ++ model ++ "\n\n"

/-- A concrete backend that always answers OUT. -/
def bk_ok : Backend := fun _ _ _ => .ok "OUT"

/-- A concrete backend that raises boom on its third call (the blueprint
stage when the run starts at index 0) and answers OUT otherwise. -/
def bk_fail3 : Backend := fun i _ _ => if i = 2 then .error "boom" else .ok "OUT"

/-- A concrete backend whose every call raises boom. -/
def bk_fail_all : Backend := fun _ _ _ => .error "boom"

end AutogenTester

namespace CrewaiDemo

/-- Tool search_emerging_startups of crewai_demo.py: builds an (unused)
search query string and returns fixed instructional text with the two
arguments spliced in; it performs no search and no network call. -/
def search_emerging_startups (industry : String) (location : String := "US") : String :=
  let search_query := "emerging startups " ++ industry ++ " " ++ location
    ++ " 2025 seed funding series A"
  "\n    Research task: Find emerging startups in " ++ industry ++ " within " ++ location
    ++ ".\n\n    Please research and provide:\n    1. Recently funded startups (check Crunchbase, PitchBook, AngelList)\n    2. Startup founding teams and their backgrounds\n    3. Funding rounds and investor information\n    4. Problem they\x27re solving and target market\n    5. Current traction and growth metrics\n    6. Notable achievements and press coverage\n\n    Focus on startups founded within the last 3 years with recent activity.\n    "

/-- Tool analyze_competitors of crewai_demo.py. -/
def analyze_competitors (startup_name : String) (industry : String) : String :=
  let search_query := startup_name ++ " competitors " ++ industry
    ++ " market share comparison analysis"
  "\n    Research task: Analyze competitors of " ++ startup_name ++ " in the " ++ industry
    ++ " space.\n\n    Please research and provide:\n    1. Direct competitors with similar offerings (check G2, Capterra, ProductHunt)\n    2. Market share and positioning of each competitor\n    3. Competitive advantages and unique selling propositions\n    4. Pricing strategies and business models\n    5. Customer reviews and satisfaction ratings\n    6. Recent product launches and strategic moves\n    7. Strengths and weaknesses analysis\n\n    Include both established players and emerging competitors.\n    Focus on actionable competitive insights.\n    "

/-- Tool analyze_product_features of crewai_demo.py. -/
def analyze_product_features (product_name : String) (category : String) : String :=
  let search_query := product_name ++ " features review analysis user feedback " ++ category
  "\n    Research task: Analyze features of " ++ product_name ++ " in the " ++ category
    ++ " space.\n\n    Please research and provide:\n    1. Core features and functionality overview\n    2. User reviews and feature-specific feedback (check ProductHunt, G2, Reddit)\n    3. Feature comparison with competing products\n    4. Most requested features from users\n    5. Technical specifications and integrations\n    6. Usability and user experience insights\n    7. Feature gaps and improvement opportunities\n\n    Include both positive feedback and pain points.\n    Focus on actionable insights for product development.\n    "

/-- Tool research_market_trends of crewai_demo.py. -/
def research_market_trends (industry : String) (timeframe : String := "2025") : String :=
  let search_query := industry ++ " market trends " ++ timeframe
    ++ " growth opportunities forecast"
  "\n    Research task: Analyze market trends in the " ++ industry ++ " sector for " ++ timeframe
    ++ ".\n\n    Please research and provide:\n    1. Current market size and growth projections\n    2. Key trends driving the industry (check Gartner, McKinsey, industry reports)\n    3. Emerging technologies and innovations\n    4. Consumer behavior shifts and preferences\n    5. Regulatory changes and their impact\n    6. Investment trends and VC interest\n    7. Market opportunities and white spaces\n\n    Provide data-driven insights with credible sources.\n    Focus on actionable trends for startup opportunities.\n    "

/-- The line of 80 equal signs of crewai_demo.py. -/
def cbar80 : String := String.mk (List.replicate 80 '=')

/-- The line of 80 dashes of crewai_demo.py. -/
def cdash80 : String := String.mk (List.replicate 80 '-')

/-- The content of the report file written by main on success
(the sequence of f.write calls, lines 426-448), with now the value of
datetime.now() and result the value returned by crew.kickoff. -/
def crew_report (industry location startup_stage target_audience analysis_focus
    category now result : String) : String :=
  cbar80 ++ "\n"
  ++ "CrewAI Multi-Agent Startup Analysis System - Real API Execution Report\n"
  ++ ("Analyzing " ++ startup_stage ++ " Startups in " ++ industry ++ "\n")
  ++ (cbar80 ++ "\n\n")
  ++ "Analysis Parameters:\n"
  ++ ("  Industry: " ++ industry ++ "\n")
  ++ ("  Location: " ++ location ++ "\n")
  ++ ("  Startup Stage: " ++ startup_stage ++ "\n")
  ++ ("  Target Audience: " ++ target_audience ++ "\n")
  ++ ("  Analysis Focus: " ++ analysis_focus ++ "\n")
  ++ ("  Product Category: " ++ category ++ "\n\n")
  ++ ("Execution Time: " ++ now ++ "\n")
  ++ "API Version: REAL API CALLS (OpenAI GPT-4)\n"
  ++ "Data Source: Web research via OpenAI\n\n"
  ++ "IMPORTANT NOTES:\n"
  ++ "- All startup data, funding information, and market analysis is based on real data\n"
  ++ "- Information is current as of the date this was run\n"
  ++ "- Startup valuations and funding status may change rapidly\n"
  ++ "- Competitive landscape and market trends should be verified before investment decisions\n\n"
  ++ "FINAL STARTUP ANALYSIS REPORT:\n"
  ++ (cdash80 ++ "\n")
  ++ result
  ++ ("\n" ++ cdash80 ++ "\n")

/-- The outcome of main of crewai_demo.py: the process exit status,
whether crew.kickoff (the call that issues the backend requests) was
invoked, and the files written as (filename, content) pairs. -/
structure CrewOutcome where
  exitCode : Nat
  kickoffInvoked : Bool
  written : List (String × String)
deriving DecidableEq, Repr

/-- main of crewai_demo.py: validates the configuration and exits with
status 1 before any agent, task or crew is created when validation fails;
otherwise creates the crew and calls crew.kickoff inside a try block whose
except clause prints the error and a traceback and returns normally, so
the process exits with status 0 whether kickoff succeeds or raises.  On
success the report file crewai_startup_analysis_<industry>.txt is written.
kick is the result of the external crew.kickoff call (some text, or the
exception it raises). -/
def main_crewai (cfgValid : Bool) (kick : Except String String)
    (industry location startup_stage target_audience analysis_focus category
     now : String) : CrewOutcome :=
  if cfgValid then
    match kick with
    | .ok result =>
      let output_filename :=
        "crewai_startup_analysis_" ++ (industry.toLower.replace "/" "_") ++ ".txt"
      ⟨0, true, [(output_filename,
        crew_report industry location startup_stage target_audience analysis_focus
          category now result)]⟩
    | .error _ => ⟨0, true, []⟩
  else ⟨1, false, []⟩

end CrewaiDemo

namespace AutogenTester

/-- A run in which all four backend calls succeed executes the four
phases in order and ends with the fully populated state: the four outputs
in execution order, the four issued calls, and the single report file. -/
theorem run_ok_shape (b : Backend) (n0 : Nat) (s : Scenario) (model ts ts2 : String)
    (o1 o2 o3 o4 : String)
    (h1 : b n0 (research_prompt s) (research_user_message s) = .ok o1)
    (h2 : b (n0 + 1) (analysis_prompt s)
      ("Research findings:\n" ++ o1 ++ "\n\nProvide your analysis.") = .ok o2)
    (h3 : b (n0 + 2) (blueprint_prompt s)
      ("Analysis:\n" ++ o2 ++ "\n\nCreate your design/blueprint.") = .ok o3)
    (h4 : b (n0 + 3) (review_prompt s)
      ("Blueprint:\n" ++ o3 ++ "\n\nProvide your review.") = .ok o4) :
    run b n0 s model ts ts2 =
      (⟨[("research", o1), ("analysis", o2), ("blueprint", o3), ("review", o4)],
        [(research_prompt s, research_user_message s),
         (analysis_prompt s, "Research findings:\n" ++ o1 ++ "\n\nProvide your analysis."),
         (blueprint_prompt s, "Analysis:\n" ++ o2 ++ "\n\nCreate your design/blueprint."),
         (review_prompt s, "Blueprint:\n" ++ o3 ++ "\n\nProvide your review.")],
        [("scenario_" ++ scenario_id s ++ "_" ++ ts ++ ".txt",
          report_header s model ts2 ++ report_body o1 o2 o3 o4)]⟩, none) := by
  simp [run, phase_research, phase_analysis, phase_blueprint, phase_review, call_phase,
    build_user_message, init_st, ctx_get, h1, h2, h3, h4, print_summary, report_sections,
    stage_names, report_body, phase_block, report_header]

/-- A backend error on the first (research) call aborts the run at once:
no output is stored, one call was issued, nothing is written. -/
theorem run_err1_shape (b : Backend) (n0 : Nat) (s : Scenario) (model ts ts2 : String)
    (e : String)
    (h1 : b n0 (research_prompt s) (research_user_message s) = .error e) :
    run b n0 s model ts ts2 =
      (⟨[], [(research_prompt s, research_user_message s)], []⟩, some e) := by
  simp [run, phase_research, call_phase, build_user_message, init_st, h1]

/-- A backend error on the second (analysis) call aborts the run with the
research output intact, two calls issued, and nothing written. -/
theorem run_err2_shape (b : Backend) (n0 : Nat) (s : Scenario) (model ts ts2 : String)
    (o1 e : String)
    (h1 : b n0 (research_prompt s) (research_user_message s) = .ok o1)
    (h2 : b (n0 + 1) (analysis_prompt s)
      ("Research findings:\n" ++ o1 ++ "\n\nProvide your analysis.") = .error e) :
    run b n0 s model ts ts2 =
      (⟨[("research", o1)],
        [(research_prompt s, research_user_message s),
         (analysis_prompt s, "Research findings:\n" ++ o1 ++ "\n\nProvide your analysis.")],
        []⟩, some e) := by
  simp [run, phase_research, phase_analysis, call_phase, build_user_message, init_st,
    ctx_get, h1, h2]

/-- A backend error on the third (blueprint) call aborts the run with the
research and analysis outputs intact, three calls issued, nothing written. -/
theorem run_err3_shape (b : Backend) (n0 : Nat) (s : Scenario) (model ts ts2 : String)
    (o1 o2 e : String)
    (h1 : b n0 (research_prompt s) (research_user_message s) = .ok o1)
    (h2 : b (n0 + 1) (analysis_prompt s)
      ("Research findings:\n" ++ o1 ++ "\n\nProvide your analysis.") = .ok o2)
    (h3 : b (n0 + 2) (blueprint_prompt s)
      ("Analysis:\n" ++ o2 ++ "\n\nCreate your design/blueprint.") = .error e) :
    run b n0 s model ts ts2 =
      (⟨[("research", o1), ("analysis", o2)],
        [(research_prompt s, research_user_message s),
         (analysis_prompt s, "Research findings:\n" ++ o1 ++ "\n\nProvide your analysis."),
         (blueprint_prompt s, "Analysis:\n" ++ o2 ++ "\n\nCreate your design/blueprint.")],
        []⟩, some e) := by
  simp [run, phase_research, phase_analysis, phase_blueprint, call_phase,
    build_user_message, init_st, ctx_get, h1, h2, h3]

/-- A backend error on the fourth (review) call aborts the run with the
first three outputs intact, four calls issued, and nothing written. -/
theorem run_err4_shape (b : Backend) (n0 : Nat) (s : Scenario) (model ts ts2 : String)
    (o1 o2 o3 e : String)
    (h1 : b n0 (research_prompt s) (research_user_message s) = .ok o1)
    (h2 : b (n0 + 1) (analysis_prompt s)
      ("Research findings:\n" ++ o1 ++ "\n\nProvide your analysis.") = .ok o2)
    (h3 : b (n0 + 2) (blueprint_prompt s)
      ("Analysis:\n" ++ o2 ++ "\n\nCreate your design/blueprint.") = .ok o3)
    (h4 : b (n0 + 3) (review_prompt s)
      ("Blueprint:\n" ++ o3 ++ "\n\nProvide your review.") = .error e) :
    run b n0 s model ts ts2 =
      (⟨[("research", o1), ("analysis", o2), ("blueprint", o3)],
        [(research_prompt s, research_user_message s),
         (analysis_prompt s, "Research findings:\n" ++ o1 ++ "\n\nProvide your analysis."),
         (blueprint_prompt s, "Analysis:\n" ++ o2 ++ "\n\nCreate your design/blueprint."),
         (review_prompt s, "Blueprint:\n" ++ o3 ++ "\n\nProvide your review.")],
        []⟩, some e) := by
  simp [run, phase_research, phase_analysis, phase_blueprint, phase_review, call_phase,
    build_user_message, init_st, ctx_get, h1, h2, h3, h4]

/-- Every run either succeeds with the full final state or aborts at some
stage k (1-indexed) with exactly the k-1 earlier outputs, k issued calls,
and no file written. -/
theorem run_characterization (b : Backend) (n0 : Nat) (s : Scenario)
    (model ts ts2 : String) :
    (∃ o1 o2 o3 o4, run b n0 s model ts ts2 =
      (⟨[("research", o1), ("analysis", o2), ("blueprint", o3), ("review", o4)],
        [(research_prompt s, research_user_message s),
         (analysis_prompt s, "Research findings:\n" ++ o1 ++ "\n\nProvide your analysis."),
         (blueprint_prompt s, "Analysis:\n" ++ o2 ++ "\n\nCreate your design/blueprint."),
         (review_prompt s, "Blueprint:\n" ++ o3 ++ "\n\nProvide your review.")],
        [("scenario_" ++ scenario_id s ++ "_" ++ ts ++ ".txt",
          report_header s model ts2 ++ report_body o1 o2 o3 o4)]⟩, none))
    ∨ (∃ st e k, run b n0 s model ts ts2 = (st, some e) ∧ 1 ≤ k ∧ k ≤ 4
        ∧ st.outputs.map Prod.fst = stage_names.take (k - 1)
        ∧ st.calls.length = k ∧ st.written = []) := by
  cases h1 : b n0 (research_prompt s) (research_user_message s) with
  | error e =>
    exact Or.inr ⟨_, e, 1, run_err1_shape b n0 s model ts ts2 e h1, by simp [stage_names]⟩
  | ok o1 =>
    cases h2 : b (n0 + 1) (analysis_prompt s)
        ("Research findings:\n" ++ o1 ++ "\n\nProvide your analysis.") with
    | error e =>
      exact Or.inr ⟨_, e, 2, run_err2_shape b n0 s model ts ts2 o1 e h1 h2,
        by simp [stage_names]⟩
    | ok o2 =>
      cases h3 : b (n0 + 2) (blueprint_prompt s)
          ("Analysis:\n" ++ o2 ++ "\n\nCreate your design/blueprint.") with
      | error e =>
        exact Or.inr ⟨_, e, 3, run_err3_shape b n0 s model ts ts2 o1 o2 e h1 h2 h3,
          by simp [stage_names]⟩
      | ok o3 =>
        cases h4 : b (n0 + 3) (review_prompt s)
            ("Blueprint:\n" ++ o3 ++ "\n\nProvide your review.") with
        | error e =>
          exact Or.inr ⟨_, e, 4, run_err4_shape b n0 s model ts ts2 o1 o2 o3 e h1 h2 h3 h4,
            by simp [stage_names]⟩
        | ok o4 =>
          exact Or.inl ⟨o1, o2, o3, o4, run_ok_shape b n0 s model ts ts2 o1 o2 o3 o4 h1 h2 h3 h4⟩

/-- C1: for every scenario, a run in which every backend call succeeds
executes the four stages research, analysis, blueprint, review in that
order, issues exactly one chat-completion call per stage (its system
prompt is the stage prompt, in execution order), and terminates with the
outputs context holding exactly 4 entries keyed by the 4 distinct stage
names, with insertion order equal to execution order. -/
theorem autogen_c1_success_runs_four_stages_in_order (b : Backend) (n0 : Nat)
    (s : Scenario) (model ts ts2 : String)
    (hb : ∀ i sys um, ∃ out, b i sys um = Except.ok out) :
    ∃ st, run b n0 s model ts ts2 = (st, none)
      ∧ st.outputs.map Prod.fst = stage_names
      ∧ st.outputs.length = 4
      ∧ stage_names.Nodup
      ∧ st.calls.map Prod.fst =
          [research_prompt s, analysis_prompt s, blueprint_prompt s, review_prompt s]
      ∧ st.calls.length = 4 := by
  obtain ⟨o1, h1⟩ := hb n0 (research_prompt s) (research_user_message s)
  obtain ⟨o2, h2⟩ := hb (n0 + 1) (analysis_prompt s)
    ("Research findings:\n" ++ o1 ++ "\n\nProvide your analysis.")
  obtain ⟨o3, h3⟩ := hb (n0 + 2) (blueprint_prompt s)
    ("Analysis:\n" ++ o2 ++ "\n\nCreate your design/blueprint.")
  obtain ⟨o4, h4⟩ := hb (n0 + 3) (review_prompt s)
    ("Blueprint:\n" ++ o3 ++ "\n\nProvide your review.")
  refine ⟨_, run_ok_shape b n0 s model ts ts2 o1 o2 o3 o4 h1 h2 h3 h4, ?_, ?_, ?_, ?_, ?_⟩
    <;> simp [stage_names]

/-- Witness for C1 at the always-succeeding backend and the conference
scenario. -/
theorem autogen_c1_witness :
    ∃ st, run bk_ok 0 Scenario.conference "gpt" "ts" "ts2" = (st, none)
      ∧ st.outputs.map Prod.fst = stage_names
      ∧ st.outputs.length = 4
      ∧ stage_names.Nodup
      ∧ st.calls.map Prod.fst =
          [research_prompt Scenario.conference, analysis_prompt Scenario.conference,
           blueprint_prompt Scenario.conference, review_prompt Scenario.conference]
      ∧ st.calls.length = 4 :=
  autogen_c1_success_runs_four_stages_in_order bk_ok 0 Scenario.conference "gpt" "ts" "ts2"
    (fun _ _ _ => ⟨"OUT", rfl⟩)

/-- C2: the user message constructed for the stage of 0-based index k
reads only the context entries of strictly earlier stages: two contexts
that agree on the outputs of the stages before k (and may differ
arbitrarily at stage k itself and at later stages) yield the same
constructed user message. -/
theorem autogen_c2_message_reads_only_earlier_stages (s : Scenario) (k : Nat)
    (ctx ctx2 : Ctx) (hk : k < 4)
    (hagree : ∀ name ∈ stage_names.take k, ctx_get ctx name = ctx_get ctx2 name) :
    build_user_message s k ctx = build_user_message s k ctx2 := by
  interval_cases k
  · rfl
  · have h := hagree "research" (by simp [stage_names])
    simp [build_user_message, h]
  · have h := hagree "analysis" (by simp [stage_names])
    simp [build_user_message, h]
  · have h := hagree "blueprint" (by simp [stage_names])
    simp [build_user_message, h]

/-- Witness for C2 at stage index 1 (analysis): a context that also holds
an entry for the analysis stage itself yields the same message as one
that holds only the research entry. -/
theorem autogen_c2_witness :
    (1 < 4
      ∧ (∀ name ∈ stage_names.take 1,
          ctx_get [("research", "r1"), ("analysis", "x")] name
            = ctx_get [("research", "r1")] name))
    ∧ build_user_message Scenario.conference 1 [("research", "r1"), ("analysis", "x")]
        = build_user_message Scenario.conference 1 [("research", "r1")] :=
  ⟨⟨by decide, by decide⟩,
    autogen_c2_message_reads_only_earlier_stages Scenario.conference 1
      [("research", "r1"), ("analysis", "x")] [("research", "r1")]
      (by decide) (by decide)⟩

/-- C3: if the backend call of stage k (1-indexed) raises, the run aborts
immediately and reports the failure: the outputs context holds exactly
the k-1 entries of the stages before k (none discarded, in order), the
backend was invoked exactly k times, so no stage after k ever ran, and no
report is written. -/
theorem autogen_c3_backend_failure_aborts_run (b : Backend) (n0 : Nat) (s : Scenario)
    (model ts ts2 : String) (st : St) (e : String)
    (h : run b n0 s model ts ts2 = (st, some e)) :
    ∃ k, 1 ≤ k ∧ k ≤ 4
      ∧ st.outputs.map Prod.fst = stage_names.take (k - 1)
      ∧ st.calls.length = k ∧ st.written = [] := by
  rcases run_characterization b n0 s model ts ts2 with
    ⟨o1, o2, o3, o4, hok⟩ | ⟨st2, e2, k, hrun, hk1, hk4, ho, hc, hw⟩
  · rw [h] at hok
    exact absurd hok (by simp)
  · rw [h] at hrun
    injection hrun with hst he
    subst hst
    exact ⟨k, hk1, hk4, ho, hc, hw⟩

/-- Witness for C3 at a backend that raises on its third call, so the run
aborts at the blueprint stage with the research and analysis outputs
intact. -/
theorem autogen_c3_witness :
    ∃ k, 1 ≤ k ∧ k ≤ 4
      ∧ (run bk_fail3 0 Scenario.conference "gpt" "ts" "ts2").1.outputs.map Prod.fst
          = stage_names.take (k - 1)
      ∧ (run bk_fail3 0 Scenario.conference "gpt" "ts" "ts2").1.calls.length = k
      ∧ (run bk_fail3 0 Scenario.conference "gpt" "ts" "ts2").1.written = [] :=
  autogen_c3_backend_failure_aborts_run bk_fail3 0 Scenario.conference "gpt" "ts" "ts2"
    (run bk_fail3 0 Scenario.conference "gpt" "ts" "ts2").1 "boom" (by rfl)

/-- The scenario argument resolves to no scenario exactly when it is not
in the valid_scenarios list of main. -/
theorem parse_scenario_none_iff (arg : String) :
    parse_scenario arg = none ↔ arg ∉ valid_scenarios := by
  unfold parse_scenario valid_scenarios
  split_ifs with h1 h2 h3 h4 <;> simp_all

/-- C4: a scenario identifier outside the configured set makes the CLI
layer exit with status 1 before any workflow is constructed: the
resulting state is the initial one, whose backend-call log is empty. -/
theorem autogen_c4_unknown_scenario_rejected (arg : String) (cfgValid : Bool)
    (b : Backend) (n0 : Nat) (model ts ts2 : String)
    (h : arg ∉ valid_scenarios) :
    main_autogen arg cfgValid b n0 model ts ts2 = (1, init_st)
      ∧ init_st.calls = [] := by
  have hp : parse_scenario arg = none := (parse_scenario_none_iff arg).mpr h
  exact ⟨by simp [main_autogen, hp], rfl⟩

/-- Witness for C4 at the identifier bogus. -/
theorem autogen_c4_witness :
    "bogus" ∉ valid_scenarios
      ∧ (main_autogen "bogus" true bk_ok 0 "gpt" "ts" "ts2" = (1, init_st)
          ∧ init_st.calls = []) :=
  ⟨by decide,
    autogen_c4_unknown_scenario_rejected "bogus" true bk_ok 0 "gpt" "ts" "ts2" (by decide)⟩

/-- A phase body issues its one call at the current global time; when the
backend's answers do not depend on that time, the phase result does not
depend on the base index of the run. -/
theorem call_phase_index_independent (b : Backend) (n0 m0 : Nat) (stage sys : String)
    (um : Option String) (st : St)
    (hdet : ∀ i j sys2 um2, b i sys2 um2 = b j sys2 um2) :
    call_phase b n0 stage sys um st = call_phase b m0 stage sys um st := by
  cases um with
  | none => rfl
  | some m =>
    simp only [call_phase]
    rw [hdet (n0 + st.calls.length) (m0 + st.calls.length) sys m]

/-- C5: with a deterministic backend (a fixed answer for each message
pair, independent of when the call is made), two runs of the same
scenario started at different times, each from the empty initial context,
produce identical results; in particular the same mapping from stage
names to output strings. -/
theorem autogen_c5_deterministic_backend_idempotent (b : Backend) (s : Scenario)
    (model ts ts2 : String) (n m : Nat)
    (hdet : ∀ i j sys um, b i sys um = b j sys um) :
    run b n s model ts ts2 = run b m s model ts ts2 := by
  simp only [run, phase_research, phase_analysis, phase_blueprint, phase_review]
  rw [call_phase_index_independent b n m "research" (research_prompt s)
    (build_user_message s 0 init_st.outputs) init_st hdet]
  cases hp1 : call_phase b m "research" (research_prompt s)
      (build_user_message s 0 init_st.outputs) init_st with
  | mk st1 e1 =>
    cases e1 with
    | some e => rfl
    | none =>
      simp only
      rw [call_phase_index_independent b n m "analysis" (analysis_prompt s)
        (build_user_message s 1 st1.outputs) st1 hdet]
      cases hp2 : call_phase b m "analysis" (analysis_prompt s)
          (build_user_message s 1 st1.outputs) st1 with
      | mk st2 e2 =>
        cases e2 with
        | some e => rfl
        | none =>
          simp only
          rw [call_phase_index_independent b n m "blueprint" (blueprint_prompt s)
            (build_user_message s 2 st2.outputs) st2 hdet]
          cases hp3 : call_phase b m "blueprint" (blueprint_prompt s)
              (build_user_message s 2 st2.outputs) st2 with
          | mk st3 e3 =>
            cases e3 with
            | some e => rfl
            | none =>
              simp only
              rw [call_phase_index_independent b n m "review" (review_prompt s)
                (build_user_message s 3 st3.outputs) st3 hdet]

/-- Witness for C5: two runs of the conference scenario against the
constant backend, started at times 0 and 4, coincide. -/
theorem autogen_c5_witness :
    run bk_ok 0 Scenario.conference "gpt" "ts" "ts2"
      = run bk_ok 4 Scenario.conference "gpt" "ts" "ts2" :=
  autogen_c5_deterministic_backend_idempotent bk_ok Scenario.conference "gpt" "ts" "ts2"
    0 4 (fun _ _ _ _ => rfl)

/-- C6 counterexample: the report filename does not follow the claimed
convention scenario-identifier_timestamp.txt; the written file is
scenario_conference_20250101_120000.txt, with the literal word scenario
prepended, not conference_20250101_120000.txt. -/
theorem autogen_c6_counterexample :
    (run bk_ok 0 Scenario.conference "gpt" "20250101_120000" "ts2").1.written.map Prod.fst
        = ["scenario_conference_20250101_120000.txt"]
    ∧ (run bk_ok 0 Scenario.conference "gpt" "20250101_120000" "ts2").1.written.map Prod.fst
        ≠ [scenario_id Scenario.conference ++ "_" ++ "20250101_120000" ++ ".txt"] := by
  constructor
  · rfl
  · decide

/-- C6 as amended: on successful completion exactly one plain-text report
is written, named scenario_<scenario>_<YYYYMMDD_HHMMSS>.txt, whose content
is the header (title, timestamp, model name) followed by exactly one
section per stage, each being the stage-name header plus that stage's raw
output, in execution order research, analysis, blueprint, review. -/
theorem autogen_c6_amended_report_file (b : Backend) (n0 : Nat) (s : Scenario)
    (model ts ts2 : String) (st : St)
    (h : run b n0 s model ts ts2 = (st, none)) :
    ∃ o1 o2 o3 o4,
      st.outputs = [("research", o1), ("analysis", o2), ("blueprint", o3), ("review", o4)]
      ∧ st.written = [("scenario_" ++ scenario_id s ++ "_" ++ ts ++ ".txt",
          report_header s model ts2 ++ report_body o1 o2 o3 o4)] := by
  rcases run_characterization b n0 s model ts ts2 with
    ⟨o1, o2, o3, o4, hok⟩ | ⟨st2, e2, k, hrun, _, _, _, _, _⟩
  · rw [h] at hok
    injection hok with hst _
    exact ⟨o1, o2, o3, o4, by rw [hst], by rw [hst]⟩
  · rw [h] at hrun
    injection hrun with _ he
    exact absurd he (by simp)

/-- Witness for C6 as amended, at the constant backend. -/
theorem autogen_c6_witness :
    ∃ o1 o2 o3 o4,
      (run bk_ok 0 Scenario.conference "gpt" "ts" "ts2").1.outputs
          = [("research", o1), ("analysis", o2), ("blueprint", o3), ("review", o4)]
      ∧ (run bk_ok 0 Scenario.conference "gpt" "ts" "ts2").1.written
          = [("scenario_" ++ scenario_id Scenario.conference ++ "_" ++ "ts" ++ ".txt",
              report_header Scenario.conference "gpt" "ts2" ++ report_body o1 o2 o3 o4)] :=
  autogen_c6_amended_report_file bk_ok 0 Scenario.conference "gpt" "ts" "ts2"
    (run bk_ok 0 Scenario.conference "gpt" "ts" "ts2").1 (by rfl)

/-- C7: when configuration validation fails, both scripts exit with
status 1 before any backend activity: the autogen script ends in the
initial state with an empty call log, and the crewai script ends without
crew.kickoff ever being invoked and with nothing written. -/
theorem crossscript_c7_config_failure_exits_nonzero (arg : String) (b : Backend)
    (n0 : Nat) (model ts ts2 : String) (kick : Except String String)
    (industry location stg aud foc cat now : String) :
    main_autogen arg false b n0 model ts ts2 = (1, init_st)
      ∧ init_st.calls = []
      ∧ CrewaiDemo.main_crewai false kick industry location stg aud foc cat now
          = ⟨1, false, []⟩ := by
  refine ⟨?_, rfl, rfl⟩
  cases hp : parse_scenario arg <;> simp [main_autogen, hp]

/-- C8 counterexample: ScenarioWorkflow.run does itself persist: a fully
successful run ends with a non-empty write log (print_summary, which run
calls as its final step, writes the report file). -/
theorem autogen_c8_counterexample :
    (run bk_ok 0 Scenario.conference "gpt" "ts" "ts2").1.written ≠ [] := by
  decide

/-- C8 as amended: during the four stages a run touches nothing beyond
the outputs context and the backend calls themselves — in particular an
aborted run has written nothing — but on success run's final
print_summary step writes exactly one report file. -/
theorem autogen_c8_amended_run_effects (b : Backend) (n0 : Nat) (s : Scenario)
    (model ts ts2 : String) (st : St) (err : Option String)
    (h : run b n0 s model ts ts2 = (st, err)) :
    (∀ e, err = some e → st.written = [])
      ∧ (err = none → ∃ f c, st.written = [(f, c)]) := by
  rcases run_characterization b n0 s model ts ts2 with
    ⟨o1, o2, o3, o4, hok⟩ | ⟨st2, e2, k, hrun, _, _, _, _, hw⟩
  · rw [h] at hok
    injection hok with hst herr
    constructor
    · intro e he
      rw [herr] at he
      exact Option.noConfusion he
    · intro _
      exact ⟨"scenario_" ++ scenario_id s ++ "_" ++ ts ++ ".txt",
        report_header s model ts2 ++ report_body o1 o2 o3 o4, by rw [hst]⟩
  · rw [h] at hrun
    injection hrun with hst herr
    subst hst
    constructor
    · intro e he
      exact hw
    · intro hnone
      rw [herr] at hnone
      exact Option.noConfusion hnone

/-- Witness for C8 as amended, at the constant backend. -/
theorem autogen_c8_witness :
    (∀ e, (none : Option String) = some e
        → (run bk_ok 0 Scenario.conference "gpt" "ts" "ts2").1.written = [])
      ∧ ((none : Option String) = none
        → ∃ f c, (run bk_ok 0 Scenario.conference "gpt" "ts" "ts2").1.written = [(f, c)]) :=
  autogen_c8_amended_run_effects bk_ok 0 Scenario.conference "gpt" "ts" "ts2"
    (run bk_ok 0 Scenario.conference "gpt" "ts" "ts2").1 none (by rfl)

/-- C10: an exception raised during a run is caught by the top-level main
of either script, which reports it and returns normally, so the process
exits with status 0 — the same status as a fully successful execution. -/
theorem crossscript_c10_backend_error_exits_zero (arg : String) (s : Scenario)
    (b : Backend) (n0 : Nat) (model ts ts2 : String) (st : St) (e : String)
    (kickText errText : String) (industry location stg aud foc cat now : String)
    (hp : parse_scenario arg = some s)
    (hrun : run b n0 s model ts ts2 = (st, some e)) :
    (main_autogen arg true b n0 model ts ts2).1 = 0
      ∧ (CrewaiDemo.main_crewai true (Except.error errText)
          industry location stg aud foc cat now).exitCode = 0
      ∧ (CrewaiDemo.main_crewai true (Except.ok kickText)
          industry location stg aud foc cat now).exitCode = 0 := by
  refine ⟨?_, rfl, rfl⟩
  simp [main_autogen, hp]

/-- Witness for C10 at a backend whose every call raises. -/
theorem crossscript_c10_witness :
    (main_autogen "conference" true bk_fail_all 0 "gpt" "ts" "ts2").1 = 0
      ∧ (CrewaiDemo.main_crewai true (Except.error "boom")
          "AI/ML" "SF" "Seed" "B2B" "comprehensive" "tools" "now").exitCode = 0
      ∧ (CrewaiDemo.main_crewai true (Except.ok "report")
          "AI/ML" "SF" "Seed" "B2B" "comprehensive" "tools" "now").exitCode = 0 :=
  crossscript_c10_backend_error_exits_zero "conference" Scenario.conference bk_fail_all 0
    "gpt" "ts" "ts2" (run bk_fail_all 0 Scenario.conference "gpt" "ts" "ts2").1 "boom"
    "report" "boom" "AI/ML" "SF" "Seed" "B2B" "comprehensive" "tools" "now"
    (by rfl) (by rfl)

end AutogenTester

namespace CrewaiDemo

/-- C9: each of the four tool functions of the crewai script is pure
string templating: for every argument values the returned text is a fixed
instructional template with the arguments spliced in at fixed positions;
being plain functions of their arguments, the tools perform no search,
no network call and no other effect. -/
theorem crewai_c9_tools_static_templates
    (industry location startup_name product_name category timeframe : String) :
    search_emerging_startups industry location
      = "\n    Research task: Find emerging startups in " ++ industry ++ " within "
        ++ location
        ++ ".\n\n    Please research and provide:\n    1. Recently funded startups (check Crunchbase, PitchBook, AngelList)\n    2. Startup founding teams and their backgrounds\n    3. Funding rounds and investor information\n    4. Problem they\x27re solving and target market\n    5. Current traction and growth metrics\n    6. Notable achievements and press coverage\n\n    Focus on startups founded within the last 3 years with recent activity.\n    "
    ∧ analyze_competitors startup_name industry
      = "\n    Research task: Analyze competitors of " ++ startup_name ++ " in the "
        ++ industry
        ++ " space.\n\n    Please research and provide:\n    1. Direct competitors with similar offerings (check G2, Capterra, ProductHunt)\n    2. Market share and positioning of each competitor\n    3. Competitive advantages and unique selling propositions\n    4. Pricing strategies and business models\n    5. Customer reviews and satisfaction ratings\n    6. Recent product launches and strategic moves\n    7. Strengths and weaknesses analysis\n\n    Include both established players and emerging competitors.\n    Focus on actionable competitive insights.\n    "
    ∧ analyze_product_features product_name category
      = "\n    Research task: Analyze features of " ++ product_name ++ " in the "
        ++ category
        ++ " space.\n\n    Please research and provide:\n    1. Core features and functionality overview\n    2. User reviews and feature-specific feedback (check ProductHunt, G2, Reddit)\n    3. Feature comparison with competing products\n    4. Most requested features from users\n    5. Technical specifications and integrations\n    6. Usability and user experience insights\n    7. Feature gaps and improvement opportunities\n\n    Include both positive feedback and pain points.\n    Focus on actionable insights for product development.\n    "
    ∧ research_market_trends industry timeframe
      = "\n    Research task: Analyze market trends in the " ++ industry ++ " sector for "
        ++ timeframe
        ++ ".\n\n    Please research and provide:\n    1. Current market size and growth projections\n    2. Key trends driving the industry (check Gartner, McKinsey, industry reports)\n    3. Emerging technologies and innovations\n    4. Consumer behavior shifts and preferences\n    5. Regulatory changes and their impact\n    6. Investment trends and VC interest\n    7. Market opportunities and white spaces\n\n    Provide data-driven insights with credible sources.\n    Focus on actionable trends for startup opportunities.\n    " :=
  ⟨rfl, rfl, rfl, rfl⟩

end CrewaiDemo
